import Mathlib

/-!
Shallow embedding of the kafkaignite synthetic-data generators
(src/kafkaigniterep). Each producer's `produce_msg` is translated into a
Lean function; Python's `random.*` draws become explicit parameters (a
`random.random()` draw is a rational in `[0, 1)`, a `random.choice` draw is
an index reduced modulo the pool size), wall-clock time is a parameter, and
Python exceptions become `Except PyErr`. Python floats are modelled as
rationals.
-/

namespace KafkaIgnite

/-- Python exception kinds that the embedded code can raise. -/
inductive PyErr where
  | typeError
  | valueError
  | keyError
  | indexError
  | retryError
  | otherError
deriving DecidableEq, Repr

/-- Python values appearing in produced messages. -/
inductive PyVal where
  | vstr : String → PyVal
  | vint : Int → PyVal
  | vfloat : ℚ → PyVal
  | vnone : PyVal
  | vlist : List PyVal → PyVal
  | vdict : List (String × PyVal) → PyVal

/-- A rendered message or key: an ordered mapping from field names to values,
as built by the Python dict literals in each `produce_msg`. -/
def Msg : Type := List (String × PyVal)

/-- The field names of a message, in declaration order. -/
def fieldNames (m : Msg) : List String := m.map Prod.fst

/-- True iff every field name of the key `k` also occurs among the field
names of the message `m`. -/
def key_subset_msg (m k : Msg) : Bool :=
  (fieldNames k).all (fun f => (fieldNames m).contains f)

/-- Python `int(q)` on a float: truncation toward zero. -/
def pyInt (q : ℚ) : Int := if 0 ≤ q then ⌊q⌋ else -⌊-q⌋

/-- Python `round(q)` with no digits: round half to even, returning an int. -/
def pyRound0 (q : ℚ) : Int :=
  let f := ⌊q⌋
  let r := q - (f : ℚ)
  if r < 1/2 then f
  else if (1 : ℚ)/2 < r then f + 1
  else if f % 2 = 0 then f else f + 1

/-- Python `round(q, 2)`: round half to even at two decimal places. -/
def roundTo2 (q : ℚ) : ℚ := (pyRound0 (q * 100) : ℚ) / 100

namespace RandomStock

/-- Module-level pool `StockNames` of random_stock_producer.py. -/
def StockNames : List String :=
  ["Deja Brew", "Jurassic Pork", "Lawn & Order", "Pita Pan",
   "Bread Pitt", "Indiana Jeans", "Thai Tanic"]

/-- Module-level constant `ShuffleProb = 0.2`. -/
def ShuffleProb : ℚ := 2/10

/-- Module-level constant `ChangeAmount = 0.8`. -/
def ChangeAmount : ℚ := 8/10

/-- The module-level mutable lists `StockCurrentValues` and `StockUpProb`;
the name pool `StockNames` is never written, so it stays a constant. -/
structure StockState where
  currentValues : List ℚ
  upProbs : List ℚ
deriving DecidableEq, Repr

/-- The initial values of `StockCurrentValues` and `StockUpProb`. -/
def initState : StockState :=
  { currentValues := [10, 201/10, 202/10, 121/10, 251/10, 251/10, 275/10],
    upProbs := [5/10, 6/10, 7/10, 8/10, 9/10, 4/10, 3/10] }

/-- Embeds `StockProvider.stock_name`: `random.choice(StockNames)`, with the draw
modelled as an index reduced modulo the (non-empty) pool size. -/
def stock_name (rName : Nat) : String :=
  StockNames.getD (rName % StockNames.length) ""

/-- Embeds `StockProvider.stock_value(stockname)`: looks up the index of the name
(`list.index` raises ValueError when absent), draws the step sign by
comparing a uniform draw `r1` with the stored up-probability, adds a step of
magnitude `r2 * ChangeAmount`, stores the new value in place, and returns
it. Out-of-range reads raise IndexError. -/
def stock_value (s : StockState) (stockname : String) (r1 r2 : ℚ) :
    Except PyErr (StockState × ℚ) :=
  match StockNames.findIdx? (fun n => n == stockname) with
  | none => .error .valueError
  | some indexStock =>
    match s.currentValues[indexStock]?, s.upProbs[indexStock]? with
    | some currentval, some p =>
      let goesup : ℚ := if r1 ≤ p then 1 else -1
      let nextval := currentval + r2 * ChangeAmount * goesup
      .ok ({ s with currentValues := s.currentValues.set indexStock nextval }, nextval)
    | _, _ => .error .indexError

/-- Embeds `StockProvider.reshuffle_probs(stockname)`: replaces the stored
up-probability of the named stock with a fresh uniform draw `r`. -/
def reshuffle_probs (s : StockState) (stockname : String) (r : ℚ) :
    Except PyErr StockState :=
  match StockNames.findIdx? (fun n => n == stockname) with
  | none => .error .valueError
  | some indexStock =>
    if indexStock < s.upProbs.length then
      .ok { s with upProbs := s.upProbs.set indexStock r }
    else .error .indexError

/-- Embeds `StockProvider.produce_msg`: picks a name, captures the timestamp,
reshuffles the up-probability when the trigger draw exceeds `ShuffleProb`,
then steps the price (inside the message dict literal) and returns the
message together with the fixed key `{"user": "all_users"}`. -/
def produce_msg (s : StockState) (rName : Nat) (ts rShuffle rReshuffle r1 r2 : ℚ) :
    Except PyErr (StockState × Msg × Msg) :=
  let stockname := stock_name rName
  match (if ShuffleProb < rShuffle then reshuffle_probs s stockname rReshuffle else .ok s) with
  | .error e => .error e
  | .ok s1 =>
    match stock_value s1 stockname r1 r2 with
    | .error e => .error e
    | .ok (s2, value) =>
      let message : Msg :=
        [("stock_name", .vstr stockname),
         ("stock_value", .vfloat value),
         ("timestamp", .vint (pyInt (ts * 1000)))]
      let key : Msg := [("user", .vstr "all_users")]
      .ok (s2, message, key)

/-- T successive `stock_value` calls on the same name, one per draw pair
`(r1, r2)`, threading the mutated state and collecting the returned values
in order. -/
def stock_value_iter (s : StockState) (stockname : String) :
    List (ℚ × ℚ) → Except PyErr (StockState × List ℚ)
  | [] => .ok (s, [])
  | (r1, r2) :: rest =>
    match stock_value s stockname r1 r2 with
    | .error e => .error e
    | .ok (s1, v) =>
      match stock_value_iter s1 stockname rest with
      | .error e => .error e
      | .ok (s2, vs) => .ok (s2, v :: vs)

end RandomStock

namespace UserBehavior

/-- Instance pool `self.user_ids = list(range(1, 10))`. -/
def user_ids : List Nat := [1, 2, 3, 4, 5, 6, 7, 8, 9]

/-- Instance pool `self.item_ids = list(range(21, 30))`. -/
def item_ids : List Nat := [21, 22, 23, 24, 25, 26, 27, 28, 29]

/-- Instance pool `self.behavior_names`. -/
def behavior_names : List String := ["view", "cart", "buy"]

/-- Instance pool `self.group_names`. -/
def group_names : List String := ["A", "B"]

/-- Instance pool `self.view_ids`. -/
def view_ids : List Nat := [111, 222, 555]

/-- Embeds `UserBehaviorProvider.user_id`: uniform choice from `user_ids`. -/
def user_id (r : Nat) : Nat := user_ids.getD (r % user_ids.length) 0

/-- Embeds `UserBehaviorProvider.item_id`: uniform choice from `item_ids`. -/
def item_id (r : Nat) : Nat := item_ids.getD (r % item_ids.length) 0

/-- Embeds `UserBehaviorProvider.behavior`: `random.choices` with weights
`[0.5, 0.3, 0.2]`, modelled by a uniform draw against the cumulative
weights. -/
def behavior (r : ℚ) : String :=
  if r < 5/10 then "view" else if r < 8/10 then "cart" else "buy"

/-- Embeds `UserBehaviorProvider.group_name`: uniform choice from `group_names`. -/
def group_name (r : Nat) : String := group_names.getD (r % group_names.length) "A"

/-- Embeds `UserBehaviorProvider.view_id`: uniform choice from `view_ids`. -/
def view_id (r : Nat) : Nat := view_ids.getD (r % view_ids.length) 0

/-- The call `self.generate_timestamp()` in `produce_msg`.
`generate_timestamp` is decorated `@staticmethod`, so the attribute access
`self.generate_timestamp` does not bind `self`; the call then supplies zero
arguments to a function whose first parameter `self` has no default, and
Python raises `TypeError: generate_timestamp() missing 1 required positional
argument: 'self'` before the function body runs. -/
def generate_timestamp_call : Except PyErr String := .error .typeError

/-- Embeds `UserBehaviorProvider.produce_msg(include_view_id=True)`: computes the
behavior and conditional view id, then builds the message dict; the
`occurred_at` entry calls `self.generate_timestamp()`, which raises
`TypeError` (see `generate_timestamp_call`). -/
def produce_msg (include_view_id : Bool) (rBeh : ℚ) (rView rUser rItem rGroup : Nat) :
    Except PyErr (Msg × Msg) :=
  let b := behavior rBeh
  let vid : PyVal :=
    if b = "view" ∧ include_view_id then .vint (view_id rView) else .vnone
  let uid := user_id rUser
  let iid := item_id rItem
  let g := group_name rGroup
  match generate_timestamp_call with
  | .error e => .error e
  | .ok occurred =>
    let message : Msg :=
      [("user_id", .vint uid),
       ("item_id", .vint iid),
       ("behavior", .vstr b),
       ("view_id", vid),
       ("group_name", .vstr g),
       ("occurred_at", .vstr occurred)]
    let key : Msg := [("user", .vstr "all_users")]
    .ok (message, key)

end UserBehavior

namespace RealStock

/-- Module-level pool `STOCK_SYMBOLS` of real_stock_producer.py. -/
def STOCK_SYMBOLS : List String :=
  ["BTC-USD", "ETH-USD", "BNB-USD", "ADA-USD", "DOGE-USD",
   "SOL-USD", "XRP-USD", "LTC-USD", "DOT-USD"]

/-- Outcome of the primary source call `si.get_live_price(...)`, treated as
an external oracle: it returns a float, returns `None` or the empty string,
or raises an exception of one of the classes the code distinguishes. -/
inductive PrimaryResult where
  | price : ℚ → PrimaryResult
  | noneOrEmpty : PrimaryResult
  | raisesValueError : PrimaryResult
  | raisesKeyError : PrimaryResult
  | raisesOther : PrimaryResult
deriving DecidableEq, Repr

/-- Outcome of the secondary source call
`yf.Ticker(...).history(period='1d')['Close'].iloc[-1]`: a float, or any
exception. -/
inductive SecondaryResult where
  | price : ℚ → SecondaryResult
  | raises : SecondaryResult
deriving DecidableEq, Repr

/-- Embeds `RealStockProvider._fetch_from_yfinance`: on success returns
`round(float(v))` (nearest integer, half to even); any exception is caught
and `-0.1` is returned. -/
def fetch_from_yfinance (sec : SecondaryResult) : ℚ :=
  match sec with
  | .price v => (pyRound0 v : ℚ)
  | .raises => -1/10

/-- Embeds `RealStockProvider.stock_value`: queries the primary source; a `None` or
empty result raises `ValueError`, and `ValueError`/`KeyError` are caught by
falling back to `_fetch_from_yfinance`; any other exception is caught by the
final handler which returns `-0.1` directly, without querying the secondary
source. On primary success the value is returned as `round(v, 2)`. The
`@retry` decorator never re-runs the body because every exception is caught
inside it, so the embedding is a single attempt. -/
def stock_value (pri : PrimaryResult) (sec : SecondaryResult) : ℚ :=
  match pri with
  | .price v => roundTo2 v
  | .noneOrEmpty => fetch_from_yfinance sec
  | .raisesValueError => fetch_from_yfinance sec
  | .raisesKeyError => fetch_from_yfinance sec
  | .raisesOther => -1/10

/-- The primary outcome is a failure (empty/invalid result or exception). -/
def primaryFails (pri : PrimaryResult) : Bool :=
  match pri with
  | .price _ => false
  | _ => true

/-- Embeds `RealStockProvider.produce_msg`: picks a symbol, fetches the live value
(`stock_value` is total, so the `except RetryError` branch that would
substitute "Data Unavailable" is unreachable), and returns the message with
key `{"stock_name": stock_name}`. -/
def produce_msg (rName : Nat) (pri : PrimaryResult) (sec : SecondaryResult) (ts : ℚ) :
    Msg × Msg :=
  let stockName := STOCK_SYMBOLS.getD (rName % STOCK_SYMBOLS.length) ""
  let value := stock_value pri sec
  ([("stock_name", .vstr stockName),
    ("stock_value", .vfloat value),
    ("timestamp", .vint (pyInt (ts * 1000)))],
   [("stock_name", .vstr stockName)])

end RealStock

namespace Metric

/-- Class pool `_VALID_HOSTNAMES` of metric_provider.py. -/
def VALID_HOSTNAMES : List String :=
  ["doc", "grumpy", "sleepy", "bashful", "happy", "sneezy", "dopey"]

/-- Class pool `_VALID_CPUS`. -/
def VALID_CPUS : List String := ["cpu1", "cpu2", "cpu3", "cpu4", "cpu5"]

/-- Embeds `MetricProvider.hostname`: uniform choice from `_VALID_HOSTNAMES`. -/
def hostname (r : Nat) : String := VALID_HOSTNAMES.getD (r % VALID_HOSTNAMES.length) ""

/-- Embeds `MetricProvider.cpu_id`: uniform choice from `_VALID_CPUS`. -/
def cpu_id (r : Nat) : String := VALID_CPUS.getD (r % VALID_CPUS.length) ""

/-- Embeds `MetricProvider.usage`: `round(random.uniform(70, 100), 2)`, with the
uniform draw `u` as a parameter. -/
def usage (u : ℚ) : ℚ := roundTo2 u

/-- Embeds `MetricProvider.produce_msg`: captures the timestamp, picks the
hostname, builds the four-field message, and keys it by the hostname. -/
def produce_msg (rH rC : Nat) (u ts : ℚ) : Msg × Msg :=
  let hn := hostname rH
  ([("hostname", .vstr hn),
    ("cpu", .vstr (cpu_id rC)),
    ("usage", .vfloat (usage u)),
    ("occurred_at", .vint (pyInt (ts * 1000)))],
   [("hostname", .vstr hn)])

end Metric

namespace MetricAdvanced

/-- Embeds `MetricAdvancedProvider.hostname`: `f"hostname{random.randint(0, self.host)}"`;
`random.randint(0, host)` raises `ValueError` when `host < 0`, otherwise it
returns an integer in `[0, host]`, modelled by the draw `r` reduced modulo
`host + 1`. -/
def hostname (host : Int) (r : Nat) : Except PyErr String :=
  if host < 0 then .error .valueError
  else .ok ("hostname" ++ toString (r % (host.toNat + 1)))

/-- Embeds `MetricAdvancedProvider.cpu_id`: `f"cpu{random.randint(0, self.cpu)}"`,
with the same `randint` behaviour. -/
def cpu_id (cpu : Int) (r : Nat) : Except PyErr String :=
  if cpu < 0 then .error .valueError
  else .ok ("cpu" ++ toString (r % (cpu.toNat + 1)))

/-- Embeds `MetricAdvancedProvider.usage`: `round(random.uniform(70, 100), 2)`. -/
def usage (u : ℚ) : ℚ := roundTo2 u

/-- The body of the `try:` block of `MetricAdvancedProvider.produce_msg`:
hostname, timestamp, then the message dict (cpu id, usage) and the hostname
key. -/
def produce_msg_body (host cpu : Int) (rH rC : Nat) (u ts : ℚ) :
    Except PyErr (Msg × Msg) :=
  match hostname host rH with
  | .error e => .error e
  | .ok hn =>
    match cpu_id cpu rC with
    | .error e => .error e
    | .ok cid =>
      let message : Msg :=
        [("hostname", .vstr hn),
         ("cpu", .vstr cid),
         ("usage", .vfloat (usage u)),
         ("occurred_at", .vint (pyInt (ts * 1000)))]
      let key : Msg := [("hostname", .vstr hn)]
      .ok (message, key)

/-- Embeds `MetricAdvancedProvider.produce_msg`: the whole body is wrapped in
`try: ... except Exception: return {}, {}`, so any exception yields the pair
of empty mappings instead of propagating. -/
def produce_msg (host cpu : Int) (rH rC : Nat) (u ts : ℚ) : Msg × Msg :=
  match produce_msg_body host cpu rH rC u ts with
  | .ok r => r
  | .error _ => ([], [])

end MetricAdvanced

namespace Pizza

/-- Class pool `PIZZA_NAMES` of pizza_producer.py. -/
def PIZZA_NAMES : List String :=
  ["Margherita", "Marinara", "Diavola", "Mari & Monti", "Salami", "Peperoni"]

/-- Class pool `TOPPINGS` (the emoji prefixes are kept as part of the
strings in the source; only the count matters here, so the names are kept
verbatim minus the emoji). -/
def TOPPINGS : List String :=
  ["tomato", "blue cheese", "egg", "green peppers", "hot pepper", "bacon",
   "olives", "garlic", "tuna", "onion", "pineapple", "strawberry", "banana"]

/-- Class pool `PIZZA_SHOPS`. -/
def PIZZA_SHOPS : List String :=
  ["Mario's Pizza", "Luigi's Pizza", "Circular Pi Pizzeria",
   "I'll Make You a Pizza You Can't Refuse", "Mammamia Pizza",
   "It's-a me! Mario Pizza!"]

/-- Embeds `PizzaProvider.pizza_name`: uniform choice. -/
def pizza_name (r : Nat) : String := PIZZA_NAMES.getD (r % PIZZA_NAMES.length) ""

/-- Embeds `PizzaProvider.pizza_topping`: uniform choice. -/
def pizza_topping (r : Nat) : String := TOPPINGS.getD (r % TOPPINGS.length) ""

/-- Embeds `PizzaProvider.pizza_shop`: uniform choice. -/
def pizza_shop (r : Nat) : String := PIZZA_SHOPS.getD (r % PIZZA_SHOPS.length) ""

/-- One element of the `pizzas` list comprehension: a dict with the pizza
name and its list of additional toppings; the draws for the name and each
topping are given explicitly. -/
def one_pizza (rn : Nat) (rts : List Nat) : PyVal :=
  .vdict [("pizza_name", .vstr (pizza_name rn)),
          ("additional_toppings", .vlist (rts.map (fun r => .vstr (pizza_topping r))))]

/-- Embeds `PizzaProvider.produce_msg`: builds the pizzas list (one entry per draw
pair, matching `randint(1, max_pizzas_in_order)` pizzas with
`randint(0, max_toppings_in_pizza)` toppings each), the order message with
faker-generated contact fields as parameters, and keys it by the shop. -/
def produce_msg (order_count : Int) (rShop : Nat)
    (fakeName fakePhone fakeAddr : String)
    (pizzaDraws : List (Nat × List Nat)) (ts : ℚ) : Msg × Msg :=
  let pizzas := pizzaDraws.map (fun p => one_pizza p.1 p.2)
  let shop := pizza_shop rShop
  let message : Msg :=
    [("id", .vint order_count),
     ("shop", .vstr shop),
     ("name", .vstr fakeName),
     ("phone_number", .vstr fakePhone),
     ("address", .vstr fakeAddr),
     ("pizzas", .vlist pizzas),
     ("timestamp", .vint (pyInt (ts * 1000)))]
  let key : Msg := [("shop", .vstr shop)]
  (message, key)

end Pizza

namespace Bet

/-- Instance pool `self.valid_usernames` of bet_data_producer.py. -/
def valid_usernames : List String :=
  ["nopineappleonpizza", "catanzaro99", "thedoctor", "bettingexpert01",
   "losingmoney66", "manutd007", "manutd009", "citylife1", "lysa_X", "aiventest"]

/-- Instance pool `self.valid_events`, as (category, subcategory, event)
triples. -/
def valid_events : List (String × String × String) :=
  [("Sport", "Football", "ManUTD vs Chelsea"),
   ("Sport", "Box", "Chicken Legs vs Power Kick"),
   ("Sport", "Curling", "Italy vs England"),
   ("Sport", "Netball", "Sydney vs Canberra"),
   ("Lottery", "Bingo", "UK Bingo"),
   ("Lottery", "WinForLife", "Win For Life America"),
   ("Event", "Music", "Rick Astley #1 in World Charts"),
   ("Event", "Politics", "Mickey Mouse new Italian President"),
   ("Event", "Celebrities", "Donald Duck and Marge Simpson Wedding")]

/-- Embeds `UserBetsProvider.username`: uniform choice. -/
def username (r : Nat) : String := valid_usernames.getD (r % valid_usernames.length) ""

/-- Embeds `UserBetsProvider.bet_amount`: `round(uniform(MIN_AMOUNT, MAX_AMOUNT * risk), 2)`
with the uniform draw `a` as a parameter. -/
def bet_amount (a : ℚ) : ℚ := roundTo2 a

/-- Embeds `UserBetsProvider.bet_category_event`: uniform choice of an event
triple. -/
def bet_category_event (r : Nat) : String × String × String :=
  valid_events.getD (r % valid_events.length) ("", "", "")

/-- Embeds `UserBetsProvider.generate_timestamp(offset_seconds=0)`:
`int((time.time() + offset_seconds) * 1000)`. -/
def generate_timestamp (ts offset : ℚ) : Int := pyInt ((ts + offset) * 1000)

/-- Embeds `UserBetsProvider.dynamic_key`: the key combining event name, category
and subcategory. -/
def dynamic_key (ev : String × String × String) : Msg :=
  [("event", .vstr ev.2.2),
   ("category", .vstr ev.1),
   ("subcategory", .vstr ev.2.1)]

/-- Embeds `UserBetsProvider.produce_msg`: username, amount, event triple; the
message nests category/subcategory/name inside the `event` field, while the
key is `dynamic_key` of the triple. -/
def produce_msg (rUser rEvent : Nat) (a ts offset : ℚ) : Msg × Msg :=
  let user := username rUser
  let amount := bet_amount a
  let ev := bet_category_event rEvent
  let message : Msg :=
    [("username", .vstr user),
     ("event", .vdict [("category", .vstr ev.1),
                       ("subcategory", .vstr ev.2.1),
                       ("name", .vstr ev.2.2)]),
     ("amount", .vfloat amount),
     ("timestamp", .vint (generate_timestamp ts offset))]
  (message, dynamic_key ev)

end Bet

namespace Loop

/-- A log record: `logger.info` of a generated message, or
`logger.critical` of the exception caught at the loop boundary. -/
inductive LogEntry where
  | info : Msg → LogEntry
  | critical : PyErr → LogEntry

/-- Observable state of the `while True:` emission loop in every `main()`:
the log records emitted so far, the sleep durations performed so far, and
the number of completed iterations. -/
structure LoopState where
  log : List LogEntry
  sleeps : List ℚ
  iterations : Nat

/-- The loop state at entry. -/
def initLoop : LoopState := { log := [], sleeps := [], iterations := 0 }

/-- One iteration of the loop body: on success, `if message:` logs the
message when it is non-empty and sleeps `random.uniform(1, 5)` (the draw
`d`); on any exception, the `except Exception` handler logs critical and
sleeps the fixed 5 time-units. Either way the loop reaches the next
iteration. -/
def loop_iter (st : LoopState) (result : Except PyErr (Msg × Msg)) (d : ℚ) : LoopState :=
  match result with
  | .ok (message, _key) =>
    { log := st.log ++ (if message.isEmpty then [] else [.info message]),
      sleeps := st.sleeps ++ [d],
      iterations := st.iterations + 1 }
  | .error e =>
    { log := st.log ++ [.critical e],
      sleeps := st.sleeps ++ [5],
      iterations := st.iterations + 1 }

/-- The loop run over a finite prefix of iteration outcomes (each outcome is
the result of `produce_msg` for that iteration, which may be an exception,
paired with that iteration's sleep draw). -/
def loop_run (st : LoopState) : List (Except PyErr (Msg × Msg) × ℚ) → LoopState
  | [] => st
  | (r, d) :: rest => loop_run (loop_iter st r d) rest

/-- The log records one iteration contributes. -/
def iterLog (step : Except PyErr (Msg × Msg) × ℚ) : List LogEntry :=
  match step.1 with
  | .ok (message, _) => if message.isEmpty then [] else [.info message]
  | .error e => [.critical e]

/-- The sleep duration one iteration performs. -/
def iterSleep (step : Except PyErr (Msg × Msg) × ℚ) : ℚ :=
  match step.1 with
  | .ok _ => step.2
  | .error _ => 5

end Loop

/-! ### Helper lemmas -/

/-- Every call of the user-behaviour `produce_msg` hits the `TypeError` from
the `self.generate_timestamp()` call and returns no message. -/
lemma UserBehavior.produce_msg_typeError (include_view_id : Bool) (rBeh : ℚ)
    (rView rUser rItem rGroup : Nat) :
    UserBehavior.produce_msg include_view_id rBeh rView rUser rItem rGroup =
      .error .typeError := rfl

/-- Closed form of a loop run from an arbitrary starting state. -/
lemma Loop.loop_run_eq (st : Loop.LoopState)
    (steps : List (Except PyErr (Msg × Msg) × ℚ)) :
    Loop.loop_run st steps =
      { log := st.log ++ (steps.map Loop.iterLog).flatten,
        sleeps := st.sleeps ++ steps.map Loop.iterSleep,
        iterations := st.iterations + steps.length } := by
  induction steps generalizing st with
  | nil => simp [Loop.loop_run]
  | cons step rest ih =>
    obtain ⟨r, d⟩ := step
    rw [Loop.loop_run, ih]
    cases r with
    | ok v =>
      obtain ⟨message, key⟩ := v
      simp [Loop.loop_iter, Loop.iterLog, Loop.iterSleep]
      omega
    | error e =>
      simp [Loop.loop_iter, Loop.iterLog, Loop.iterSleep]
      omega

/-- Evaluation of `stock_value` at a name whose index and state entries are
known. -/
lemma RandomStock.stock_value_eq (s : RandomStock.StockState) (name : String)
    (i : Nat) (v p r1 r2 : ℚ)
    (hidx : RandomStock.StockNames.findIdx? (fun n => n == name) = some i)
    (hv : s.currentValues[i]? = some v) (hp : s.upProbs[i]? = some p) :
    RandomStock.stock_value s name r1 r2 =
      .ok (⟨s.currentValues.set i
              (v + r2 * RandomStock.ChangeAmount * (if r1 ≤ p then 1 else -1)),
            s.upProbs⟩,
           v + r2 * RandomStock.ChangeAmount * (if r1 ≤ p then 1 else -1)) := by
  simp only [RandomStock.stock_value, hidx, hv, hp]

/-! ### Claims -/

/-- C1 counterexample: at a concrete input the random-stock `produce_msg`
succeeds and returns the key `{"user": "all_users"}` whose field "user" is
not among the message fields `stock_name`, `stock_value`, `timestamp`, so
the claim that every template's Key contains only Message field names is
false on the code. -/
theorem C1_counterexample_key_not_subset :
    Except.map (fun r => key_subset_msg r.2.1 r.2.2)
      (RandomStock.produce_msg RandomStock.initState 0 0 1 0 1 0) = .ok false := by
  norm_num [RandomStock.produce_msg, RandomStock.stock_name, RandomStock.stock_value,
    RandomStock.reshuffle_probs, RandomStock.initState, RandomStock.ShuffleProb,
    RandomStock.StockNames]
  rfl

/-- C1 (amended): the Key-subset property holds for the metric,
metric-advanced, real-stock and pizza templates; it fails for the remaining
three: the random-stock template always returns the constant key whose only
field "user" is absent from its message, the user-behaviour template never
returns a pair at all (its render raises TypeError), and the bet template's
key fields "category" and "subcategory" occur only nested inside the
message's "event" value, not as top-level message fields. -/
theorem C1_amended_key_fields :
    (∀ rH rC u ts, key_subset_msg (Metric.produce_msg rH rC u ts).1
        (Metric.produce_msg rH rC u ts).2 = true) ∧
    (∀ host cpu rH rC u ts,
      key_subset_msg (MetricAdvanced.produce_msg host cpu rH rC u ts).1
        (MetricAdvanced.produce_msg host cpu rH rC u ts).2 = true) ∧
    (∀ rName pri sec ts, key_subset_msg (RealStock.produce_msg rName pri sec ts).1
        (RealStock.produce_msg rName pri sec ts).2 = true) ∧
    (∀ oc rShop fn fp fa pd ts, key_subset_msg (Pizza.produce_msg oc rShop fn fp fa pd ts).1
        (Pizza.produce_msg oc rShop fn fp fa pd ts).2 = true) ∧
    (∀ s rName ts rs rr r1 r2 s2 m k,
      RandomStock.produce_msg s rName ts rs rr r1 r2 = .ok (s2, m, k) →
      fieldNames k = ["user"] ∧ ¬ "user" ∈ fieldNames m) ∧
    (∀ b rB rV rU rI rG,
      UserBehavior.produce_msg b rB rV rU rI rG = .error .typeError) ∧
    (∀ rUser rEvent a ts off,
      "category" ∈ fieldNames (Bet.produce_msg rUser rEvent a ts off).2 ∧
      ¬ "category" ∈ fieldNames (Bet.produce_msg rUser rEvent a ts off).1) := by
  refine ⟨fun rH rC u ts => rfl, ?_, fun rName pri sec ts => rfl,
    fun oc rShop fn fp fa pd ts => rfl, ?_, UserBehavior.produce_msg_typeError, ?_⟩
  · intro host cpu rH rC u ts
    by_cases h1 : host < 0
    · simp [MetricAdvanced.produce_msg, MetricAdvanced.produce_msg_body,
        MetricAdvanced.hostname, h1, key_subset_msg, fieldNames]
    · by_cases h2 : cpu < 0
      · simp [MetricAdvanced.produce_msg, MetricAdvanced.produce_msg_body,
          MetricAdvanced.hostname, MetricAdvanced.cpu_id, h1, h2, key_subset_msg, fieldNames]
      · simp [MetricAdvanced.produce_msg, MetricAdvanced.produce_msg_body,
          MetricAdvanced.hostname, MetricAdvanced.cpu_id, h1, h2, key_subset_msg, fieldNames]
  · intro s rName ts rs rr r1 r2 s2 m k h
    simp only [RandomStock.produce_msg] at h
    split at h
    · simp at h
    · split at h
      · simp at h
      · simp only [Except.ok.injEq, Prod.mk.injEq] at h
        obtain ⟨h1, h2, h3⟩ := h
        subst h2
        subst h3
        refine ⟨rfl, ?_⟩
        show ¬ "user" ∈ ["stock_name", "stock_value", "timestamp"]
        decide
  · intro rUser rEvent a ts off
    constructor
    · show "category" ∈ ["event", "category", "subcategory"]
      decide
    · show ¬ "category" ∈ ["username", "event", "amount", "timestamp"]
      decide

/-- C1 witness: the random-stock failure conjunct instantiated at a
concrete input on which `produce_msg` succeeds. -/
theorem C1_amended_key_fields_witness :
    fieldNames [("user", PyVal.vstr "all_users")] = ["user"] ∧
    ¬ "user" ∈ fieldNames
        [("stock_name", PyVal.vstr "Deja Brew"), ("stock_value", PyVal.vfloat 10),
         ("timestamp", PyVal.vint 0)] :=
  C1_amended_key_fields.2.2.2.2.1 RandomStock.initState 0 0 1 0 1 0
    ⟨[10, 201/10, 202/10, 121/10, 251/10, 251/10, 275/10],
     [0, 6/10, 7/10, 8/10, 9/10, 4/10, 3/10]⟩
    [("stock_name", PyVal.vstr "Deja Brew"), ("stock_value", PyVal.vfloat 10),
     ("timestamp", PyVal.vint 0)]
    [("user", PyVal.vstr "all_users")]
    (by norm_num [RandomStock.produce_msg, RandomStock.stock_name,
      RandomStock.stock_value, RandomStock.reshuffle_probs, RandomStock.initState,
      RandomStock.ShuffleProb, RandomStock.StockNames, pyInt])

/-- C2: every invocation of `UserBehaviorProvider.produce_msg` (with any
arguments, including the defaults) raises `TypeError`, because
`generate_timestamp` is a staticmethod whose required first parameter `self`
is never supplied by the call `self.generate_timestamp()`; hence the
producer never returns a (Message, Key) pair, and the corresponding
emission-loop iteration takes the exception-recovery path (critical log and
the fixed 5-unit sleep). -/
theorem C2_user_behaviour_always_raises :
    ∀ (include_view_id : Bool) (rBeh : ℚ) (rView rUser rItem rGroup : Nat)
      (st : Loop.LoopState) (d : ℚ),
      UserBehavior.produce_msg include_view_id rBeh rView rUser rItem rGroup =
        .error .typeError ∧
      Loop.loop_iter st
          (UserBehavior.produce_msg include_view_id rBeh rView rUser rItem rGroup) d =
        { log := st.log ++ [.critical .typeError],
          sleeps := st.sleeps ++ [5],
          iterations := st.iterations + 1 } := by
  intro include_view_id rBeh rView rUser rItem rGroup st d
  exact ⟨UserBehavior.produce_msg_typeError .., rfl⟩

/-- C3 counterexample: with a primary source that fails by raising an
exception outside `(ValueError, KeyError)` and a secondary source that
succeeds with the value 42, `stock_value` returns the sentinel `-0.1`, not
42: the generic `except Exception` branch returns the sentinel without
querying the secondary source, so the claim as stated is false. -/
theorem C3_counterexample :
    RealStock.stock_value .raisesOther (.price 42) = -1/10 ∧ ((-1 : ℚ)/10) ≠ 42 := by
  exact ⟨rfl, by norm_num⟩

/-- C3 (amended): when the primary query returns an empty/invalid result or
raises `ValueError`/`KeyError`, the secondary source is queried and, if it
succeeds with value V, `stock_value` returns `round(V)` (V rounded to the
nearest integer, half to even) rather than V itself; when the primary raises
any other exception, `stock_value` returns the sentinel `-0.1` without
consulting the secondary source. -/
theorem C3_amended_fallback :
    (∀ V : ℚ,
      RealStock.stock_value .noneOrEmpty (.price V) = (pyRound0 V : ℚ) ∧
      RealStock.stock_value .raisesValueError (.price V) = (pyRound0 V : ℚ) ∧
      RealStock.stock_value .raisesKeyError (.price V) = (pyRound0 V : ℚ)) ∧
    (∀ sec : RealStock.SecondaryResult,
      RealStock.stock_value .raisesOther sec = -1/10) := by
  exact ⟨fun V => ⟨rfl, rfl, rfl⟩, fun sec => rfl⟩

/-- C4: the emission loop processes every iteration of any finite schedule
of outcomes: an iteration whose render raised an exception contributes
exactly one critical log record and the fixed 5-unit recovery sleep, a
successful iteration contributes its info record and its drawn sleep, and
the iteration count always equals the schedule length — no exception
terminates the loop early. In particular, a schedule of 100 failing
iterations yields 100 critical records and 100 recovery sleeps. -/
theorem C4_loop_survives_exceptions :
    ∀ steps : List (Except PyErr (Msg × Msg) × ℚ),
      Loop.loop_run Loop.initLoop steps =
        { log := (steps.map Loop.iterLog).flatten,
          sleeps := steps.map Loop.iterSleep,
          iterations := steps.length } := by
  intro steps
  rw [Loop.loop_run_eq]
  simp [Loop.initLoop]

/-- C5: whenever the primary source fails (empty/invalid result or any
exception) and the secondary source also fails, `stock_value` returns the
sentinel `-0.1`; in the embedding `stock_value` is a total function, so no
fetch failure escapes the adapter. -/
theorem C5_total_failure_sentinel :
    ∀ (pri : RealStock.PrimaryResult) (sec : RealStock.SecondaryResult),
      RealStock.primaryFails pri = true → sec = .raises →
      RealStock.stock_value pri sec = -1/10 := by
  intro pri sec hpri hsec
  subst hsec
  cases pri with
  | price v => simp [RealStock.primaryFails] at hpri
  | noneOrEmpty => rfl
  | raisesValueError => rfl
  | raisesKeyError => rfl
  | raisesOther => rfl

/-- C5 witness: both sources failing at a concrete input yields `-0.1`. -/
theorem C5_total_failure_sentinel_witness :
    RealStock.stock_value .raisesValueError .raises = -1/10 :=
  C5_total_failure_sentinel .raisesValueError .raises rfl rfl

/-- C10: `MetricAdvancedProvider.produce_msg` never raises: whenever the
message-building body raises any exception, the handler returns the pair of
two empty mappings. (In the embedding `produce_msg` is total by
construction, which is the "never raises" half of the claim.) -/
theorem C10_metric_advanced_catches_all :
    ∀ (host cpu : Int) (rH rC : Nat) (u ts : ℚ) (e : PyErr),
      MetricAdvanced.produce_msg_body host cpu rH rC u ts = .error e →
      MetricAdvanced.produce_msg host cpu rH rC u ts = ([], []) := by
  intro host cpu rH rC u ts e h
  unfold MetricAdvanced.produce_msg
  rw [h]

/-- C10 witness: with `host = -1` the body raises `ValueError` (from
`random.randint(0, -1)`) and `produce_msg` returns `({}, {})`. -/
theorem C10_metric_advanced_catches_all_witness :
    MetricAdvanced.produce_msg (-1) 0 0 0 0 0 = ([], []) :=
  C10_metric_advanced_catches_all (-1) 0 0 0 0 0 .valueError rfl

/-- C6: `stock_value` applied to an entity with current value `v` and
up-probability `p` returns and stores `v + s·m`, with sign `s = +1` exactly
when the draw `r1` satisfies `r1 ≤ p` and `-1` otherwise, and magnitude
`m = r2 · ChangeAmount`, which for a uniform draw `r2 ∈ [0, 1]` lies in
`[0, ChangeAmount]`; no clamp is applied, and the stored value can become
negative (last conjunct: a state with value 0 and up-probability 0 steps to
`-0.8 < 0`). -/
theorem C6_step_entity_signed_step :
    ∀ (s : RandomStock.StockState) (name : String) (i : Nat) (v p r1 r2 : ℚ),
      RandomStock.StockNames.findIdx? (fun n => n == name) = some i →
      s.currentValues[i]? = some v → s.upProbs[i]? = some p →
      RandomStock.stock_value s name r1 r2 =
        .ok (⟨s.currentValues.set i
                (v + r2 * RandomStock.ChangeAmount * (if r1 ≤ p then 1 else -1)),
              s.upProbs⟩,
             v + r2 * RandomStock.ChangeAmount * (if r1 ≤ p then 1 else -1)) ∧
      (0 ≤ r2 → r2 ≤ 1 →
        0 ≤ r2 * RandomStock.ChangeAmount ∧
        r2 * RandomStock.ChangeAmount ≤ RandomStock.ChangeAmount) ∧
      (∃ s' v', RandomStock.stock_value
          ⟨[0, 0, 0, 0, 0, 0, 0], [0, 0, 0, 0, 0, 0, 0]⟩ "Deja Brew" 1 1 =
            .ok (s', v') ∧ v' < 0) := by
  intro s name i v p r1 r2 hidx hv hp
  refine ⟨RandomStock.stock_value_eq s name i v p r1 r2 hidx hv hp, ?_, ?_⟩
  · intro h0 h1
    constructor
    · exact mul_nonneg h0 (by norm_num [RandomStock.ChangeAmount])
    · calc r2 * RandomStock.ChangeAmount ≤ 1 * RandomStock.ChangeAmount := by
            apply mul_le_mul_of_nonneg_right h1
            norm_num [RandomStock.ChangeAmount]
        _ = RandomStock.ChangeAmount := one_mul _
  · refine ⟨_, _, RandomStock.stock_value_eq _ "Deja Brew" 0 0 0 1 1 rfl rfl rfl, ?_⟩
    norm_num [RandomStock.ChangeAmount]

/-- C6 witness: the equation at the initial state, stock "Deja Brew"
(index 0, value 10, up-probability 0.5), draws `r1 = r2 = 0`. -/
theorem C6_step_entity_signed_step_witness :
    RandomStock.stock_value RandomStock.initState "Deja Brew" 0 0 =
      .ok (⟨RandomStock.initState.currentValues.set 0
              (10 + 0 * RandomStock.ChangeAmount * (if (0:ℚ) ≤ 5/10 then 1 else -1)),
            RandomStock.initState.upProbs⟩,
           10 + 0 * RandomStock.ChangeAmount * (if (0:ℚ) ≤ 5/10 then 1 else -1)) :=
  (C6_step_entity_signed_step RandomStock.initState "Deja Brew" 0 10 (5/10) 0 0
    rfl rfl rfl).1

/-- C7: for an entity whose up-probability is fixed at 1, any number T of
successive `stock_value` calls (each with draws satisfying `r1 ≤ 1`,
`0 ≤ r2`, as produced by `random.random()`) succeeds, and the sequence of
current value followed by the T produced values is monotonically
non-decreasing. -/
theorem C7_monotone_when_up_prob_one :
    ∀ (draws : List (ℚ × ℚ)) (s : RandomStock.StockState) (name : String)
      (i : Nat) (v0 : ℚ),
      RandomStock.StockNames.findIdx? (fun n => n == name) = some i →
      s.currentValues[i]? = some v0 → s.upProbs[i]? = some 1 →
      (∀ d ∈ draws, d.1 ≤ 1 ∧ 0 ≤ d.2) →
      ∃ s' vs, RandomStock.stock_value_iter s name draws = .ok (s', vs) ∧
        List.Chain' (· ≤ ·) (v0 :: vs) := by
  intro draws
  induction draws with
  | nil =>
    intro s name i v0 hidx hv hp hd
    exact ⟨s, [], rfl, List.chain'_singleton v0⟩
  | cons d rest ih =>
    intro s name i v0 hidx hv hp hd
    obtain ⟨r1, r2⟩ := d
    have hd1 : r1 ≤ 1 := (hd _ (List.mem_cons_self ..)).1
    have hd2 : (0:ℚ) ≤ r2 := (hd _ (List.mem_cons_self ..)).2
    have hstep := RandomStock.stock_value_eq s name i v0 1 r1 r2 hidx hv hp
    rw [if_pos hd1] at hstep
    have hlen : i < s.currentValues.length := (List.getElem?_eq_some.mp hv).1
    have hv1 : (s.currentValues.set i
        (v0 + r2 * RandomStock.ChangeAmount * 1))[i]? =
        some (v0 + r2 * RandomStock.ChangeAmount * 1) :=
      List.getElem?_set_eq_of_lt _ hlen
    obtain ⟨s', vs, hiter, hchain⟩ :=
      ih ⟨s.currentValues.set i (v0 + r2 * RandomStock.ChangeAmount * 1), s.upProbs⟩
        name i (v0 + r2 * RandomStock.ChangeAmount * 1) hidx hv1 hp
        (fun d hmem => hd d (List.mem_cons_of_mem _ hmem))
    refine ⟨s', (v0 + r2 * RandomStock.ChangeAmount * 1) :: vs, ?_, ?_⟩
    · simp only [RandomStock.stock_value_iter, hstep, hiter]
    · refine List.chain'_cons.mpr ⟨?_, hchain⟩
      exact le_add_of_nonneg_right
        (mul_nonneg (mul_nonneg hd2 (by norm_num [RandomStock.ChangeAmount])) zero_le_one)

/-- C7 witness: two steps on a state whose up-probabilities are all 1,
starting from value 10, with draws `(1, 0)` and `(0, 1)`. -/
theorem C7_monotone_when_up_prob_one_witness :
    ∃ s' vs, RandomStock.stock_value_iter
        ⟨[10, 20, 20, 12, 25, 25, 27], [1, 1, 1, 1, 1, 1, 1]⟩ "Deja Brew"
        [(1, 0), (0, 1)] = .ok (s', vs) ∧
      List.Chain' (· ≤ ·) (10 :: vs) :=
  C7_monotone_when_up_prob_one [(1, 0), (0, 1)]
    ⟨[10, 20, 20, 12, 25, 25, 27], [1, 1, 1, 1, 1, 1, 1]⟩ "Deja Brew" 0 10
    rfl rfl rfl (by simp)

/-- C8: `stock_value` and `reshuffle_probs` invoked for the entity at index
`i` mutate only that entity's slot: `stock_value` leaves the up-probability
list untouched and every other index `j ≠ i` of the value list unchanged
(and preserves its length), while `reshuffle_probs` leaves the value list
untouched and every other index of the up-probability list unchanged; the
name pool `StockNames` is a constant the code never writes. -/
theorem C8_mutation_frame :
    ∀ (s : RandomStock.StockState) (name : String) (i j : Nat) (r1 r2 r : ℚ),
      RandomStock.StockNames.findIdx? (fun n => n == name) = some i →
      j ≠ i →
      (∀ s' v, RandomStock.stock_value s name r1 r2 = .ok (s', v) →
        s'.upProbs = s.upProbs ∧ s'.currentValues[j]? = s.currentValues[j]? ∧
        s'.currentValues.length = s.currentValues.length) ∧
      (∀ s', RandomStock.reshuffle_probs s name r = .ok s' →
        s'.currentValues = s.currentValues ∧ s'.upProbs[j]? = s.upProbs[j]? ∧
        s'.upProbs.length = s.upProbs.length) := by
  intro s name i j r1 r2 r hidx hj
  constructor
  · intro s' v h
    simp only [RandomStock.stock_value, hidx] at h
    cases hcv : s.currentValues[i]? with
    | none => rw [hcv] at h; simp at h
    | some cv =>
      cases hup : s.upProbs[i]? with
      | none => rw [hcv, hup] at h; simp at h
      | some p =>
        rw [hcv, hup] at h
        simp only [Except.ok.injEq, Prod.mk.injEq] at h
        obtain ⟨h1, h2⟩ := h
        subst h1
        exact ⟨rfl, List.getElem?_set_ne hj.symm, by simp⟩
  · intro s' h
    simp only [RandomStock.reshuffle_probs, hidx] at h
    split at h
    · simp only [Except.ok.injEq] at h
      subst h
      exact ⟨rfl, List.getElem?_set_ne hj.symm, by simp⟩
    · simp at h

/-- C8 witness: the frame property at the initial state, stock "Deja Brew"
(index 0) and the other index 1. -/
theorem C8_mutation_frame_witness :
    (∀ s' v, RandomStock.stock_value RandomStock.initState "Deja Brew" 0 0 = .ok (s', v) →
      s'.upProbs = RandomStock.initState.upProbs ∧
      s'.currentValues[1]? = RandomStock.initState.currentValues[1]? ∧
      s'.currentValues.length = RandomStock.initState.currentValues.length) ∧
    (∀ s', RandomStock.reshuffle_probs RandomStock.initState "Deja Brew" 0 = .ok s' →
      s'.currentValues = RandomStock.initState.currentValues ∧
      s'.upProbs[1]? = RandomStock.initState.upProbs[1]? ∧
      s'.upProbs.length = RandomStock.initState.upProbs.length) :=
  C8_mutation_frame RandomStock.initState "Deja Brew" 0 1 0 0 0 rfl (by decide)

/-- C9: in `produce_msg` the up-probability of the selected stock is
reshuffled exactly when the trigger draw is strictly greater than
`ShuffleProb` (an event of probability `1 - ShuffleProb = 0.8` for a uniform
draw), and the reshuffle happens before the price step: in the reshuffle
branch the step's sign is decided against the fresh probability `rr`, while
in the other branch the stored probability `p` is used and the
up-probability list is unchanged. -/
theorem C9_reshuffle_before_step :
    ∀ (s : RandomStock.StockState) (rName : Nat) (ts rs rr r1 r2 : ℚ) (i : Nat) (v p : ℚ),
      RandomStock.StockNames.findIdx? (fun n => n == RandomStock.stock_name rName) = some i →
      s.currentValues[i]? = some v → s.upProbs[i]? = some p →
      i < s.upProbs.length →
      (RandomStock.ShuffleProb < rs →
        RandomStock.produce_msg s rName ts rs rr r1 r2 =
          .ok (⟨s.currentValues.set i
                  (v + r2 * RandomStock.ChangeAmount * (if r1 ≤ rr then 1 else -1)),
                s.upProbs.set i rr⟩,
               [("stock_name", .vstr (RandomStock.stock_name rName)),
                ("stock_value", .vfloat
                  (v + r2 * RandomStock.ChangeAmount * (if r1 ≤ rr then 1 else -1))),
                ("timestamp", .vint (pyInt (ts * 1000)))],
               [("user", .vstr "all_users")])) ∧
      (¬ RandomStock.ShuffleProb < rs →
        RandomStock.produce_msg s rName ts rs rr r1 r2 =
          .ok (⟨s.currentValues.set i
                  (v + r2 * RandomStock.ChangeAmount * (if r1 ≤ p then 1 else -1)),
                s.upProbs⟩,
               [("stock_name", .vstr (RandomStock.stock_name rName)),
                ("stock_value", .vfloat
                  (v + r2 * RandomStock.ChangeAmount * (if r1 ≤ p then 1 else -1))),
                ("timestamp", .vint (pyInt (ts * 1000)))],
               [("user", .vstr "all_users")])) := by
  intro s rName ts rs rr r1 r2 i v p hidx hv hp hlen
  constructor
  · intro htrig
    have hresh : RandomStock.reshuffle_probs s (RandomStock.stock_name rName) rr =
        .ok ⟨s.currentValues, s.upProbs.set i rr⟩ := by
      simp only [RandomStock.reshuffle_probs, hidx, if_pos hlen]
    have hstep := RandomStock.stock_value_eq ⟨s.currentValues, s.upProbs.set i rr⟩
      (RandomStock.stock_name rName) i v rr r1 r2 hidx hv
      (List.getElem?_set_eq_of_lt rr hlen)
    simp only [RandomStock.produce_msg, if_pos htrig, hresh, hstep]
  · intro htrig
    have hstep := RandomStock.stock_value_eq s (RandomStock.stock_name rName) i v p
      r1 r2 hidx hv hp
    simp only [RandomStock.produce_msg, if_neg htrig, hstep]

/-- C9 witness: the branch dichotomy at the initial state and stock
"Deja Brew" (index 0, value 10, stored probability 0.5). -/
theorem C9_reshuffle_before_step_witness :
    (RandomStock.ShuffleProb < 1 →
      RandomStock.produce_msg RandomStock.initState 0 0 1 0 0 0 =
        .ok (⟨RandomStock.initState.currentValues.set 0
                (10 + 0 * RandomStock.ChangeAmount * (if (0:ℚ) ≤ 0 then 1 else -1)),
              RandomStock.initState.upProbs.set 0 0⟩,
             [("stock_name", .vstr (RandomStock.stock_name 0)),
              ("stock_value", .vfloat
                (10 + 0 * RandomStock.ChangeAmount * (if (0:ℚ) ≤ 0 then 1 else -1))),
              ("timestamp", .vint (pyInt (0 * 1000)))],
             [("user", .vstr "all_users")])) ∧
    (¬ RandomStock.ShuffleProb < 1 →
      RandomStock.produce_msg RandomStock.initState 0 0 1 0 0 0 =
        .ok (⟨RandomStock.initState.currentValues.set 0
                (10 + 0 * RandomStock.ChangeAmount * (if (0:ℚ) ≤ 5/10 then 1 else -1)),
              RandomStock.initState.upProbs⟩,
             [("stock_name", .vstr (RandomStock.stock_name 0)),
              ("stock_value", .vfloat
                (10 + 0 * RandomStock.ChangeAmount * (if (0:ℚ) ≤ 5/10 then 1 else -1))),
              ("timestamp", .vint (pyInt (0 * 1000)))],
             [("user", .vstr "all_users")])) :=
  C9_reshuffle_before_step RandomStock.initState 0 0 1 0 0 0 0 10 (5/10)
    rfl rfl rfl (by decide)

end KafkaIgnite
